import Mathlib

/-!
Verification development for the AgentGateway web interface repository.

The repository consists of two FastAPI services:
* `services/web-interface/mcp_gateway/main.py` — the main web interface
  (dashboard, playground, agents page, tools page, health check, agent list
  API, chat API), guarded by a module-level availability flag
  `AGENTGATEWAY_AVAILABLE` set by a best-effort import of the external
  `agentgateway` library;
* `services/web-interface/mcp_gateway/services/context7-mcp/main.py` — the
  Context7 placeholder service with three static JSON endpoints.

The embedding below translates the handlers into pure Lean functions.  The
module-level availability flag becomes an explicit `Bool` argument, and the
only fallible operation inside the chat handler's `try` block — the external
`AgentGateway()` constructor — becomes an explicit `Except String Unit`
argument recording whether it raised and with which message.  Python's
`str.format` (used by the `agents` and `tools` page handlers on
`HTML_TEMPLATE`) is modelled faithfully, including its error behaviour on
unescaped braces and unknown replacement-field names.
-/

set_option maxRecDepth 40000
set_option maxHeartbeats 2000000
set_option linter.unusedVariables false

/-! ### Substring containment

`strContains s sub` decides whether `sub` occurs in `s` as a literal,
contiguous substring (the sense of "contains as literal substring" used by
the specification). -/

/-- Boolean prefix test on character lists. -/
def isPrefixChars : List Char → List Char → Bool
  | [], _ => true
  | _ :: _, [] => false
  | a :: as, b :: bs => a == b && isPrefixChars as bs

/-- Boolean contiguous-substring test on character lists. -/
def containsChars (sub : List Char) : List Char → Bool
  | [] => sub.isEmpty
  | x :: rest => isPrefixChars sub (x :: rest) || containsChars sub rest

/-- `sub` occurs in `s` as a literal contiguous substring. -/
def strContains (s sub : String) : Bool :=
  containsChars sub.data s.data

/-! ### A model of Python's `str.format`

`pyFormat template args` renders `template` with the keyword arguments
`args`, following CPython's `str.format` semantics for the constructs that
occur in this repository: `{{` and `}}` are literal braces, `{name}` is a
replacement field whose name ends at `:`, `!` or `}` (a `:` starts a format
spec, skipped up to the matching brace), a field whose name is not among the
keyword arguments raises `KeyError(name)`, and an unmatched single brace
raises `ValueError`.  Fields are processed left to right and the first error
aborts the whole call, exactly as in CPython. -/

/-- Errors raised by `str.format`. -/
inductive FmtError where
  | keyError (key : String)
  | valueError (msg : String)
deriving DecidableEq

/-- `dict.get`: look up a key in an association list. -/
def dictGet {α : Type} (m : List (String × α)) (k : String) : Option α :=
  (m.find? (fun p => p.1 == k)).map (fun p => p.2)

/-- `dict.get(k, d)`: look up a key, falling back to a default. -/
def dictGetD {α : Type} (m : List (String × α)) (k : String) (d : α) : α :=
  (dictGet m k).getD d

/-- Skip a format spec up to the `\x7d` matching the field's opening brace
(tracking nested braces); `none` if the input ends first. -/
def skipSpec : Nat → List Char → Option (List Char)
  | _, [] => none
  | 0, '\x7d' :: rest => some rest
  | d + 1, '\x7d' :: rest => skipSpec d rest
  | d, '\x7b' :: rest => skipSpec (d + 1) rest
  | d, _ :: rest => skipSpec d rest

/-- Read a replacement field's name: characters up to `:`, `!` or the
closing brace.  Returns the name and the remaining input after the field's
closing brace; `none` if the field is never closed. -/
def readField : List Char → String → Option (String × List Char)
  | [], _ => none
  | '\x7d' :: rest, acc => some (acc, rest)
  | ':' :: rest, acc => (skipSpec 0 rest).map (fun r => (acc, r))
  | '!' :: _ :: '\x7d' :: rest, acc => some (acc, rest)
  | '!' :: _ :: ':' :: rest, acc => (skipSpec 0 rest).map (fun r => (acc, r))
  | c :: rest, acc => readField rest (acc.push c)

/-- Fuel bound for `formatCore`.  Each step consumes at least one input
character, so any fuel exceeding the template length suffices; CPython's
`str.format` needs no such bound, and on every input shorter than
`formatFuel` characters (every string in this repository is far shorter)
the model never reaches the fuel-exhaustion case. -/
def formatFuel : Nat := 1000000

/-- Main rendering loop of `str.format`, with fuel. -/
def formatCore (args : List (String × String)) : Nat → List Char → String → Except FmtError String
  | 0, _, _ => Except.error (FmtError.valueError "out of fuel")
  | _ + 1, [], acc => Except.ok acc
  | fuel + 1, '\x7b' :: '\x7b' :: rest, acc => formatCore args fuel rest (acc.push '\x7b')
  | fuel + 1, '\x7d' :: '\x7d' :: rest, acc => formatCore args fuel rest (acc.push '\x7d')
  | fuel + 1, '\x7b' :: rest, acc =>
    match readField rest "" with
    | none => Except.error (FmtError.valueError "Single \x7b encountered in format string")
    | some (name, rest2) =>
      match dictGet args name with
      | none => Except.error (FmtError.keyError name)
      | some v => formatCore args fuel rest2 (acc ++ v)
  | _ + 1, '\x7d' :: _, _ => Except.error (FmtError.valueError "Single \x7d encountered in format string")
  | fuel + 1, c :: rest, acc => formatCore args fuel rest (acc.push c)

/-- `template.format(**args)`. -/
def pyFormat (template : String) (args : List (String × String)) : Except FmtError String :=
  formatCore args formatFuel template.data ""

/-! ### The HTML strings of `mcp_gateway/main.py`

Transcribed verbatim from the Python source.  Python triple-quoted strings
are rendered as `String.intercalate "\n"` over their lines (including the
leading newline after the opening quotes and the indentation preceding the
closing quotes, where present). -/

/-- `HTML_TEMPLATE` (module level): the shared page template rendered with
`str.format`.  Note the unescaped CSS braces, e.g. in the line
`* \x7b margin: 0; ... \x7d`: under `str.format` these form a replacement
field named `" margin"`. -/
def HTML_TEMPLATE : String :=
  String.intercalate "\n" [
  "",
  "<!DOCTYPE html>",
  "<html lang=\"en\">",
  "<head>",
  "    <meta charset=\"UTF-8\">",
  "    <meta name=\"viewport\" content=\"width=device-width, initial-scale=1.0\">",
  "    <title>AgentGateway - \x7btitle\x7d</title>",
  "    <style>",
  "        * \x7b margin: 0; padding: 0; box-sizing: border-box; \x7d",
  "        body \x7b ",
  "            font-family: -apple-system, BlinkMacSystemFont, \x27Segoe UI\x27, system-ui, sans-serif; ",
  "            background: #f5f5f7; color: #1d1d1f; line-height: 1.6; ",
  "        \x7d",
  "        .container \x7b max-width: 1200px; margin: 0 auto; padding: 20px; \x7d",
  "        .header \x7b ",
  "            background: #fff; border-radius: 12px; padding: 24px; margin-bottom: 24px; ",
  "            box-shadow: 0 4px 16px rgba(0,0,0,0.1);",
  "        \x7d",
  "        .header h1 \x7b color: #007AFF; margin-bottom: 8px; \x7d",
  "        .nav \x7b display: flex; gap: 12px; margin-bottom: 24px; \x7d",
  "        .nav a \x7b ",
  "            background: #007AFF; color: white; padding: 12px 20px; border-radius: 8px; ",
  "            text-decoration: none; transition: all 0.2s; ",
  "        \x7d",
  "        .nav a:hover \x7b background: #0056b3; transform: translateY(-1px); \x7d",
  "        .nav a.active \x7b background: #0056b3; \x7d",
  "        .card \x7b ",
  "            background: #fff; border-radius: 12px; padding: 24px; margin-bottom: 24px; ",
  "            box-shadow: 0 2px 8px rgba(0,0,0,0.1); ",
  "        \x7d",
  "        .status \x7b ",
  "            display: inline-block; padding: 4px 12px; border-radius: 20px; ",
  "            font-size: 14px; font-weight: 500; ",
  "        \x7d",
  "        .status.healthy \x7b background: #d4edda; color: #155724; \x7d",
  "        .status.error \x7b background: #f8d7da; color: #721c24; \x7d",
  "        .metrics-grid \x7b ",
  "            display: grid; grid-template-columns: repeat(auto-fit, minmax(200px, 1fr)); ",
  "            gap: 16px; margin: 20px 0; ",
  "        \x7d",
  "        .metric \x7b background: #f8f9fa; padding: 16px; border-radius: 8px; text-align: center; \x7d",
  "        .metric-value \x7b font-size: 24px; font-weight: bold; color: #007AFF; \x7d",
  "        .playground-form \x7b",
  "            display: flex; flex-direction: column; gap: 16px;",
  "        \x7d",
  "        .playground-form input, .playground-form select, .playground-form textarea \x7b",
  "            padding: 12px; border: 1px solid #ddd; border-radius: 8px; font-size: 16px;",
  "        \x7d",
  "        .playground-form button \x7b",
  "            background: #007AFF; color: white; padding: 12px 24px; border: none;",
  "            border-radius: 8px; font-size: 16px; cursor: pointer;",
  "        \x7d",
  "        .playground-form button:hover \x7b background: #0056b3; \x7d",
  "        .response-box \x7b",
  "            background: #f8f9fa; border-radius: 8px; padding: 16px; margin-top: 16px;",
  "            border-left: 4px solid #007AFF; white-space: pre-wrap; font-family: monospace;",
  "        \x7d",
  "        .agent-list \x7b",
  "            display: grid; gap: 12px;",
  "        \x7d",
  "        .agent-item \x7b",
  "            background: #f8f9fa; padding: 16px; border-radius: 8px;",
  "            border-left: 4px solid #007AFF;",
  "        \x7d",
  "    </style>",
  "</head>",
  "<body>",
  "    <div class=\"container\">",
  "        <div class=\"header\">",
  "            <h1>🤖 AgentGateway Web Interface</h1>",
  "            <p>Web interface for AgentGateway library - Version 1.0.0</p>",
  "        </div>",
  "        ",
  "        <nav class=\"nav\">",
  "            <a href=\"/\" \x7bhome_active\x7d>🏠 Dashboard</a>",
  "            <a href=\"/playground\" \x7bplayground_active\x7d>🎮 Playground</a>",
  "            <a href=\"/agents\" \x7bagents_active\x7d>🤖 Agents</a>",
  "            <a href=\"/tools\" \x7btools_active\x7d>🛠️ Tools</a>",
  "        </nav>",
  "        ",
  "        <div class=\"card\">",
  "            \x7bcontent\x7d",
  "        </div>",
  "    </div>",
  "</body>",
  "</html>",
  ""
]

/-- `simple_html`, the local string returned by the `dashboard` handler (`GET /`). -/
def simple_html : String :=
  String.intercalate "\n" [
  "",
  "    <!DOCTYPE html>",
  "    <html>",
  "    <head><title>AgentGateway</title></head>",
  "    <body>",
  "        <h1>🤖 AgentGateway Web Interface</h1>",
  "        <p>Status: Available</p>",
  "        <p><a href=\"/health\">Health Check</a></p>",
  "        <p><a href=\"/api/docs\">API Documentation</a></p>",
  "        <p><a href=\"/api/agents\">List Agents</a></p>",
  "    </body>",
  "    </html>",
  "    "
]

/-- `simple_playground`, the local string returned by the `playground` handler (`GET /playground`). -/
def simple_playground : String :=
  String.intercalate "\n" [
  "",
  "    <!DOCTYPE html>",
  "    <html>",
  "    <head>",
  "        <title>AgentGateway Playground</title>",
  "        <style>",
  "            body \x7b font-family: Arial, sans-serif; margin: 40px; \x7d",
  "            form \x7b margin: 20px 0; \x7d",
  "            input, select, textarea, button \x7b margin: 10px 0; padding: 10px; width: 300px; \x7d",
  "            button \x7b width: 100px; background: #007AFF; color: white; border: none; border-radius: 5px; \x7d",
  "            #response \x7b background: #f0f0f0; padding: 15px; margin: 20px 0; border-radius: 5px; white-space: pre-wrap; \x7d",
  "        </style>",
  "    </head>",
  "    <body>",
  "        <h1>🎮 AgentGateway Playground</h1>",
  "        <p>Interactive chat interface for testing AI agents</p>",
  "        ",
  "        <form onsubmit=\"sendMessage(event)\">",
  "            <div>",
  "                <label>Agent Type:</label><br>",
  "                <select name=\"agent_type\" id=\"agent_type\">",
  "                    <option value=\"openai\">OpenAI GPT</option>",
  "                    <option value=\"anthropic\">Anthropic Claude</option>",
  "                    <option value=\"groq\">Groq</option>",
  "                    <option value=\"bedrock\">AWS Bedrock</option>",
  "                </select>",
  "            </div>",
  "            ",
  "            <div>",
  "                <label>Model:</label><br>",
  "                <input type=\"text\" name=\"model\" id=\"model\" placeholder=\"gpt-3.5-turbo\" value=\"gpt-3.5-turbo\">",
  "            </div>",
  "            ",
  "            <div>",
  "                <label>Message:</label><br>",
  "                <textarea name=\"message\" id=\"message\" placeholder=\"Enter your message...\" rows=\"4\"></textarea>",
  "            </div>",
  "            ",
  "            <button type=\"submit\">Send</button>",
  "        </form>",
  "        ",
  "        <div id=\"response\" style=\"display: none;\"></div>",
  "        ",
  "        <script>",
  "        async function sendMessage(event) \x7b",
  "            event.preventDefault();",
  "            const formData = new FormData(event.target);",
  "            const data = \x7b",
  "                message: formData.get(\x27message\x27),",
  "                agent_type: formData.get(\x27agent_type\x27),",
  "                model: formData.get(\x27model\x27)",
  "            \x7d;",
  "            ",
  "            const responseDiv = document.getElementById(\x27response\x27);",
  "            responseDiv.style.display = \x27block\x27;",
  "            responseDiv.textContent = \x27Sending message...\x27;",
  "            ",
  "            try \x7b",
  "                const response = await fetch(\x27/api/chat\x27, \x7b",
  "                    method: \x27POST\x27,",
  "                    headers: \x7b\x27Content-Type\x27: \x27application/json\x27\x7d,",
  "                    body: JSON.stringify(data)",
  "                \x7d);",
  "                ",
  "                const result = await response.json();",
  "                responseDiv.textContent = JSON.stringify(result, null, 2);",
  "            \x7d catch (error) \x7b",
  "                responseDiv.textContent = \x27Error: \x27 + error.message;",
  "            \x7d",
  "        \x7d",
  "        </script>",
  "        ",
  "        <p><a href=\"/\">← Back to Dashboard</a></p>",
  "    </body>",
  "    </html>",
  "    "
]

/-- The `agents_list` local of the `agents` handler when `AGENTGATEWAY_AVAILABLE` is false: the error panel. -/
def agents_list_unavailable : String :=
  String.intercalate "\n" [
  "",
  "        <div style=\"background: #f8d7da; color: #721c24; padding: 16px; border-radius: 8px;\">",
  "            AgentGateway library not available.",
  "        </div>",
  "        "
]

/-- The `agents_list` local of the `agents` handler when `AGENTGATEWAY_AVAILABLE` is true: the six agent cards. -/
def agents_list_available : String :=
  String.intercalate "\n" [
  "",
  "        <div class=\"agent-list\">",
  "            <div class=\"agent-item\">",
  "                <h4>OpenAI GPT Agent</h4>",
  "                <p>Supports GPT-3.5, GPT-4 and other OpenAI models</p>",
  "            </div>",
  "            <div class=\"agent-item\">",
  "                <h4>Anthropic Claude Agent</h4>",
  "                <p>Claude 3 and other Anthropic models</p>",
  "            </div>",
  "            <div class=\"agent-item\">",
  "                <h4>Groq Agent</h4>",
  "                <p>Fast inference with Groq\x27s LPU technology</p>",
  "            </div>",
  "            <div class=\"agent-item\">",
  "                <h4>AWS Bedrock Agent</h4>",
  "                <p>Access to AWS Bedrock foundation models</p>",
  "            </div>",
  "            <div class=\"agent-item\">",
  "                <h4>Fireworks AI Agent</h4>",
  "                <p>Fireworks AI hosted models</p>",
  "            </div>",
  "            <div class=\"agent-item\">",
  "                <h4>Together AI Agent</h4>",
  "                <p>Together AI platform models</p>",
  "            </div>",
  "        </div>",
  "        "
]

/-- The `content` local of the `tools` handler: fixed, independent of the availability flag. -/
def tools_content : String :=
  String.intercalate "\n" [
  "",
  "    <h2>🛠️ Built-in Tools</h2>",
  "    <p>AgentGateway includes various tools for enhanced agent capabilities.</p>",
  "    ",
  "    <div class=\"agent-list\">",
  "        <div class=\"agent-item\">",
  "            <h4>Web Search Tool</h4>",
  "            <p>Search the web for current information</p>",
  "        </div>",
  "        <div class=\"agent-item\">",
  "            <h4>Calculator Tool</h4>",
  "            <p>Perform mathematical calculations</p>",
  "        </div>",
  "        <div class=\"agent-item\">",
  "            <h4>Weather Tool</h4>",
  "            <p>Get weather information for any location</p>",
  "        </div>",
  "        <div class=\"agent-item\">",
  "            <h4>Translation Tool</h4>",
  "            <p>Translate text between languages</p>",
  "        </div>",
  "        <div class=\"agent-item\">",
  "            <h4>Sentiment Analysis Tool</h4>",
  "            <p>Analyze sentiment of text</p>",
  "        </div>",
  "        <div class=\"agent-item\">",
  "            <h4>Text Summarization Tool</h4>",
  "            <p>Summarize long text content</p>",
  "        </div>",
  "        <div class=\"agent-item\">",
  "            <h4>Topic Detection Tool</h4>",
  "            <p>Detect topics in text content</p>",
  "        </div>",
  "        <div class=\"agent-item\">",
  "            <h4>Ask User Tool</h4>",
  "            <p>Interactive tool to ask user for input</p>",
  "        </div>",
  "    </div>",
  "    "
]

/-! ### Data model and handlers of `mcp_gateway/main.py` -/

/-- Modelled from the spec: the external `agentgateway` library's `AgentType`
enum — only the four members referenced by `main.py` (the library itself is
an external collaborator, not part of this repository). -/
inductive AgentType where
  | OPENAI_GPT
  | ANTHROPIC_CLAUDE
  | GROQ
  | BEDROCK_CONVERSE
deriving DecidableEq

/-- The pydantic `ChatRequest` model: `message` required, `agent_type`
defaulting to `"openai"`, `model` defaulting to `"gpt-3.5-turbo"`. -/
structure ChatRequest where
  message : String
  agent_type : String := "openai"
  model : String := "gpt-3.5-turbo"
deriving DecidableEq

/-- A JSON request body for `POST /api/chat`: each of the three fields of
`ChatRequest` either present (with a string value) or absent. -/
structure ChatBody where
  message : Option String
  agent_type : Option String
  model : Option String
deriving DecidableEq

/-- FastAPI/pydantic validation of a request body against `ChatRequest`:
`message` is required (a body without it is rejected and the handler never
runs); `agent_type` and `model` take their declared defaults when absent. -/
def parseChatRequest (body : ChatBody) : Option ChatRequest :=
  match body.message with
  | none => none
  | some m =>
    some { message := m,
           agent_type := body.agent_type.getD "openai",
           model := body.model.getD "gpt-3.5-turbo" }

/-- Outcome of the chat endpoint: either the returned JSON dict (HTTP 200)
with its four string fields, or a raised `HTTPException`-style error
(status code plus `detail` string), which FastAPI serialises as
`{"detail": ...}` with that status. -/
inductive ChatOut where
  | ok (response : String) (agent_type : String) (model : String) (status : String)
  | exc (statusCode : Nat) (detail : String)
deriving DecidableEq

/-- The HTTP status code of a chat outcome (a plain return is HTTP 200). -/
def ChatOut.httpStatus : ChatOut → Nat
  | ChatOut.ok _ _ _ _ => 200
  | ChatOut.exc s _ => s

/-- The `agent_type_map` dict of the `chat` handler. -/
def agent_type_map : List (String × AgentType) :=
  [("openai", AgentType.OPENAI_GPT),
   ("anthropic", AgentType.ANTHROPIC_CLAUDE),
   ("groq", AgentType.GROQ),
   ("bedrock", AgentType.BEDROCK_CONVERSE)]

/-- The `response_text` local of the `chat` handler:
`f"Mock response for '{request.message}' using {request.agent_type} model {request.model}"`. -/
def response_text (request : ChatRequest) : String :=
  "Mock response for \x27" ++ request.message ++ "\x27 using " ++
    request.agent_type ++ " model " ++ request.model

/-- The `chat` handler (`POST /api/chat`), after request validation.
`AGENTGATEWAY_AVAILABLE` is the module-level availability flag;
`gatewayInit` records whether the external `AgentGateway()` constructor —
the only fallible operation in the handler's `try` block — raised, and with
which message (`str(e)`). -/
def chat (AGENTGATEWAY_AVAILABLE : Bool) (gatewayInit : Except String Unit)
    (request : ChatRequest) : ChatOut :=
  if !AGENTGATEWAY_AVAILABLE then
    ChatOut.exc 503 "AgentGateway library not available"
  else
    match gatewayInit with
    | Except.error e => ChatOut.exc 500 ("Error: " ++ e)
    | Except.ok _ =>
      let agent_type := dictGetD agent_type_map request.agent_type AgentType.OPENAI_GPT
      ChatOut.ok (response_text request) request.agent_type request.model "success"

/-- The full `POST /api/chat` endpoint: FastAPI first validates the body
against `ChatRequest` (a body without `message` yields a 422 validation
error, whose exact JSON body is framework-generated and modelled here only
by its status code and a summary detail), then runs the `chat` handler. -/
def chatEndpoint (AGENTGATEWAY_AVAILABLE : Bool) (gatewayInit : Except String Unit)
    (body : ChatBody) : ChatOut :=
  match parseChatRequest body with
  | none => ChatOut.exc 422 "field required: message"
  | some request => chat AGENTGATEWAY_AVAILABLE gatewayInit request

/-- The JSON body returned by the `health_check` handler. -/
structure HealthBody where
  status : String
  agentgateway_available : Bool
  version : String
deriving DecidableEq

/-- The `health_check` handler (`GET /health`). -/
def health_check (AGENTGATEWAY_AVAILABLE : Bool) : HealthBody :=
  { status := if AGENTGATEWAY_AVAILABLE then "healthy" else "limited",
    agentgateway_available := AGENTGATEWAY_AVAILABLE,
    version := "1.0.0" }

/-- One agent descriptor of the `list_agents` catalog. -/
structure AgentDescriptor where
  id : String
  name : String
  description : String
deriving DecidableEq

/-- The JSON body returned by the `list_agents` handler. -/
structure AgentsBody where
  agents : List AgentDescriptor
  available : Bool
deriving DecidableEq

/-- The `list_agents` handler (`GET /api/agents`). -/
def list_agents (AGENTGATEWAY_AVAILABLE : Bool) : AgentsBody :=
  if !AGENTGATEWAY_AVAILABLE then
    { agents := [], available := false }
  else
    { agents :=
        [{ id := "openai", name := "OpenAI GPT", description := "OpenAI GPT models" },
         { id := "anthropic", name := "Anthropic Claude", description := "Claude models" },
         { id := "groq", name := "Groq", description := "Groq LPU models" },
         { id := "bedrock", name := "AWS Bedrock", description := "Bedrock models" }],
      available := true }

/-- The `dashboard` handler (`GET /`): returns `simple_html` (HTTP 200). -/
def dashboard : String :=
  simple_html

/-- The `playground` handler (`GET /playground`): returns
`simple_playground` (HTTP 200). -/
def playground : String :=
  simple_playground

/-- The `agents_list` local of the `agents` handler, branching on the
availability flag. -/
def agents_list (AGENTGATEWAY_AVAILABLE : Bool) : String :=
  if !AGENTGATEWAY_AVAILABLE then agents_list_unavailable else agents_list_available

/-- The `content` f-string local of the `agents` handler. -/
def agents_content (AGENTGATEWAY_AVAILABLE : Bool) : String :=
  String.intercalate "\n" [
  "",
  "    <h2>🤖 Available Agents</h2>",
  "    <p>AgentGateway supports multiple AI providers and models.</p>",
  "    " ++ agents_list AGENTGATEWAY_AVAILABLE,
  "    "]

/-- The `agents` handler (`GET /agents`): renders `HTML_TEMPLATE` with
`str.format`.  The result is the rendered page, or the `str.format` error if
formatting raises. -/
def agents (AGENTGATEWAY_AVAILABLE : Bool) : Except FmtError String :=
  pyFormat HTML_TEMPLATE
    [("title", "Agents"),
     ("content", agents_content AGENTGATEWAY_AVAILABLE),
     ("home_active", ""),
     ("playground_active", ""),
     ("agents_active", "class=\"active\""),
     ("tools_active", "")]

/-- The `tools` handler (`GET /tools`): renders `HTML_TEMPLATE` with
`str.format` over the fixed `tools_content`; it does not read the
availability flag at all. -/
def tools : Except FmtError String :=
  pyFormat HTML_TEMPLATE
    [("title", "Tools"),
     ("content", tools_content),
     ("home_active", ""),
     ("playground_active", ""),
     ("agents_active", ""),
     ("tools_active", "class=\"active\"")]

/-! ### The Context7 placeholder service
(`services/context7-mcp/main.py`) -/

namespace Context7

/-- The JSON body of the Context7 `health_check` handler. -/
structure HealthBody where
  status : String
  service : String
deriving DecidableEq

/-- The JSON body of the Context7 `mcp_capabilities` handler. -/
structure CapabilitiesBody where
  capabilities : List String
  service : String
deriving DecidableEq

/-- The JSON body of the Context7 `root` handler. -/
structure RootBody where
  message : String
  version : String
deriving DecidableEq

/-- The Context7 `health_check` handler (`GET /health`): a literal,
input-independent JSON object. -/
def health_check : HealthBody :=
  { status := "healthy", service := "context7-mcp" }

/-- The Context7 `mcp_capabilities` handler (`GET /mcp/capabilities`): a
literal, input-independent JSON object. -/
def mcp_capabilities : CapabilitiesBody :=
  { capabilities := ["search", "upload", "index"], service := "context7-mcp" }

/-- The Context7 `root` handler (`GET /`): a literal, input-independent
JSON object. -/
def root : RootBody :=
  { message := "Context7 MCP Service", version := "0.1.0" }

end Context7

/-! ### Helper lemmas about substring containment -/

theorem isPrefixChars_append_self (sub t : List Char) :
    isPrefixChars sub (sub ++ t) = true := by
  induction sub with
  | nil => rfl
  | cons a as ih => simp [isPrefixChars, ih]

theorem containsChars_nil_sub (l : List Char) : containsChars [] l = true := by
  induction l with
  | nil => rfl
  | cons x rest ih => simp [containsChars, isPrefixChars]

theorem containsChars_self_append (sub t : List Char) :
    containsChars sub (sub ++ t) = true := by
  cases sub with
  | nil => simpa using containsChars_nil_sub t
  | cons a as =>
    have h := isPrefixChars_append_self (a :: as) t
    simp only [List.cons_append] at h
    simp [containsChars, h]

theorem containsChars_append_right (sub pre l : List Char)
    (h : containsChars sub l = true) : containsChars sub (pre ++ l) = true := by
  induction pre with
  | nil => simpa using h
  | cons x rest ih => simp [containsChars, ih]

theorem containsChars_middle (pre sub suf : List Char) :
    containsChars sub (pre ++ (sub ++ suf)) = true :=
  containsChars_append_right sub pre _ (containsChars_self_append sub suf)

/-- If `s` splits as `a ++ m ++ b` at the level of character data, then `m`
is a literal substring of `s`. -/
theorem strContains_of_parts (s a m b : String)
    (h : s.data = a.data ++ (m.data ++ b.data)) : strContains s m = true := by
  unfold strContains
  rw [h]
  exact containsChars_middle a.data m.data b.data

/-! ### Claim theorems -/

/-- C1: for every POST /api/chat request with the dependency available (and
the external constructor succeeding, the handler's only fallible step), the
handler returns HTTP 200 whose response string is exactly the synthetic mock
string — so no real inference occurs — and that string contains the caller's
message, agent_type and model as literal substrings. -/
theorem chat_success_mock_response (request : ChatRequest) :
    chat true (Except.ok ()) request =
      ChatOut.ok (response_text request) request.agent_type request.model "success" ∧
    (chat true (Except.ok ()) request).httpStatus = 200 ∧
    strContains (response_text request) request.message = true ∧
    strContains (response_text request) request.agent_type = true ∧
    strContains (response_text request) request.model = true := by
  refine ⟨rfl, rfl, ?_, ?_, ?_⟩
  · apply strContains_of_parts _ "Mock response for \x27" request.message
      ("\x27 using " ++ request.agent_type ++ " model " ++ request.model)
    simp [response_text, String.data_append]
  · apply strContains_of_parts _ ("Mock response for \x27" ++ request.message ++ "\x27 using ")
      request.agent_type (" model " ++ request.model)
    simp [response_text, String.data_append]
  · apply strContains_of_parts _
      ("Mock response for \x27" ++ request.message ++ "\x27 using " ++
        request.agent_type ++ " model ")
      request.model ""
    simp [response_text, String.data_append]

/-- C2 counterexample: with the library unavailable, a body that omits
`message` (e.g. the empty JSON object) is rejected by request validation
with HTTP 422 — not 503 — so the endpoint does not return 503 regardless of
body content. -/
theorem chat_unavailable_missing_message_not_503 :
    chatEndpoint false (Except.ok ()) { message := none, agent_type := none, model := none } =
      ChatOut.exc 422 "field required: message" ∧
    (chatEndpoint false (Except.ok ()) { message := none, agent_type := none, model := none }).httpStatus ≠ 503 :=
  ⟨rfl, by decide⟩

/-- C2 amended: for every request body that passes validation (i.e. contains
a `message` string), when the library is unavailable the chat endpoint
returns HTTP 503 with the fixed detail "AgentGateway library not available",
regardless of the remaining body content; a body omitting `message` is
instead rejected with HTTP 422 before the handler runs. -/
theorem chat_unavailable_503 :
    (∀ (m : String) (a mo : Option String) (gatewayInit : Except String Unit),
      chatEndpoint false gatewayInit { message := some m, agent_type := a, model := mo } =
        ChatOut.exc 503 "AgentGateway library not available") ∧
    (∀ (a mo : Option String) (gatewayInit : Except String Unit),
      (chatEndpoint false gatewayInit { message := none, agent_type := a, model := mo }).httpStatus = 422) :=
  ⟨fun _ _ _ _ => rfl, fun _ _ _ => rfl⟩

/-- C3: GET /api/agents returns an empty list with `available := false` when
the availability flag is false, and otherwise exactly the four fixed agent
descriptors (id, name, description) with `available := true`. -/
theorem list_agents_catalog :
    list_agents false = { agents := [], available := false } ∧
    list_agents true =
      { agents :=
          [{ id := "openai", name := "OpenAI GPT", description := "OpenAI GPT models" },
           { id := "anthropic", name := "Anthropic Claude", description := "Claude models" },
           { id := "groq", name := "Groq", description := "Groq LPU models" },
           { id := "bedrock", name := "AWS Bedrock", description := "Bedrock models" }],
        available := true } ∧
    (list_agents true).agents.length = 4 :=
  ⟨rfl, rfl, rfl⟩

/-- C4: GET /health returns status "limited" with
`agentgateway_available := false` when the availability flag is false, and
"healthy" with `true` when it is true, in both cases with the version
string; the status tag is derived solely from the flag. -/
theorem health_check_flag (AGENTGATEWAY_AVAILABLE : Bool) :
    health_check AGENTGATEWAY_AVAILABLE =
      { status := if AGENTGATEWAY_AVAILABLE then "healthy" else "limited",
        agentgateway_available := AGENTGATEWAY_AVAILABLE,
        version := "1.0.0" } ∧
    health_check false =
      { status := "limited", agentgateway_available := false, version := "1.0.0" } ∧
    health_check true =
      { status := "healthy", agentgateway_available := true, version := "1.0.0" } :=
  ⟨rfl, rfl, rfl⟩

/-- C5 counterexample: when chat-response construction raises an exception
with text "boom", the endpoint returns HTTP 500 whose detail is
"Error: boom" — the raw error text prefixed with "Error: ", not the raw
error text itself. -/
theorem chat_error_detail_prefixed :
    chat true (Except.error "boom") { message := "hi" } = ChatOut.exc 500 "Error: boom" ∧
    "Error: boom" ≠ "boom" :=
  ⟨rfl, by decide⟩

/-- C5 amended: for every exception raised during chat-response construction
with the dependency available, the chat endpoint catches it and returns HTTP
500 whose detail is the string "Error: " followed by the raw error text of
the exception. -/
theorem chat_exception_500 (e : String) (request : ChatRequest) :
    chat true (Except.error e) request = ChatOut.exc 500 ("Error: " ++ e) :=
  rfl

/-- C6 counterexample: with the library unavailable, the tools page shows no
error panel — its handler raises a `str.format` KeyError instead of
returning HTML at all, and even its content fragment never mentions the
error-panel text. -/
theorem tools_page_no_error_panel :
    tools = Except.error (FmtError.keyError " margin") ∧
    strContains tools_content "AgentGateway library not available" = false :=
  ⟨rfl, rfl⟩

/-- C6 amended: the agents page's content fragment varies only on the
availability flag and shows the error panel exactly when the library failed
to load, while the tools page's content fragment is a fixed string with no
error panel; however, neither page returns its HTML: rendering the shared
template raises a `str.format` KeyError (unescaped CSS braces, field
" margin") for either value of the flag. -/
theorem pages_fixed_content_render_fails :
    strContains (agents_list false) "AgentGateway library not available" = true ∧
    strContains (agents_list true) "AgentGateway library not available" = false ∧
    strContains tools_content "AgentGateway library not available" = false ∧
    agents false = Except.error (FmtError.keyError " margin") ∧
    agents true = Except.error (FmtError.keyError " margin") ∧
    tools = Except.error (FmtError.keyError " margin") :=
  ⟨rfl, rfl, rfl, rfl, rfl, rfl⟩

/-- C7 (code bug): the dashboard and playground handlers do return fixed
non-empty HTML, but the agents and tools handlers never return HTML — for
either value of the availability flag, `str.format` on `HTML_TEMPLATE`
raises KeyError " margin" because of the template's unescaped CSS braces, so
GET /agents and GET /tools produce HTTP 500 instead of 200. -/
theorem get_pages_render_outcome :
    dashboard ≠ "" ∧
    playground ≠ "" ∧
    agents false = Except.error (FmtError.keyError " margin") ∧
    agents true = Except.error (FmtError.keyError " margin") ∧
    tools = Except.error (FmtError.keyError " margin") :=
  ⟨by decide, by decide, rfl, rfl, rfl⟩

/-- C8: every agent_type string outside \x7b"openai", "anthropic", "groq",
"bedrock"\x7d is silently mapped to `AgentType.OPENAI_GPT` by the chat
handler's `agent_type_map.get(..., OPENAI_GPT)`, while the synthetic
response still interpolates the caller's requested agent-type string
itself. -/
theorem unknown_agent_type_defaults (s : String)
    (h1 : s ≠ "openai") (h2 : s ≠ "anthropic") (h3 : s ≠ "groq") (h4 : s ≠ "bedrock") :
    dictGetD agent_type_map s AgentType.OPENAI_GPT = AgentType.OPENAI_GPT ∧
    ∀ (message model : String),
      strContains (response_text { message := message, agent_type := s, model := model }) s = true := by
  constructor
  · have e1 : ("openai" == s) = false := beq_eq_false_iff_ne.mpr (Ne.symm h1)
    have e2 : ("anthropic" == s) = false := beq_eq_false_iff_ne.mpr (Ne.symm h2)
    have e3 : ("groq" == s) = false := beq_eq_false_iff_ne.mpr (Ne.symm h3)
    have e4 : ("bedrock" == s) = false := beq_eq_false_iff_ne.mpr (Ne.symm h4)
    simp [dictGetD, dictGet, agent_type_map, List.find?, e1, e2, e3, e4]
  · intro message model
    apply strContains_of_parts _ ("Mock response for \x27" ++ message ++ "\x27 using ") s
      (" model " ++ model)
    simp [response_text, String.data_append]

/-- C8 witness: the concrete unknown agent type "fireworks" is mapped to
`AgentType.OPENAI_GPT`, and the mock response for it still contains
"fireworks". -/
theorem unknown_agent_type_defaults_w :
    dictGetD agent_type_map "fireworks" AgentType.OPENAI_GPT = AgentType.OPENAI_GPT ∧
    strContains (response_text { message := "hi", agent_type := "fireworks", model := "m" })
      "fireworks" = true := by
  have h := unknown_agent_type_defaults "fireworks" (by decide) (by decide) (by decide) (by decide)
  exact ⟨h.1, h.2 "hi" "m"⟩

/-- C9: the Context7 service's three endpoints return literal,
input-independent JSON objects; in particular GET /health returns exactly
the object with status "healthy" and service "context7-mcp". -/
theorem context7_static_endpoints :
    Context7.health_check = { status := "healthy", service := "context7-mcp" } ∧
    Context7.root = { message := "Context7 MCP Service", version := "0.1.0" } ∧
    Context7.mcp_capabilities =
      { capabilities := ["search", "upload", "index"], service := "context7-mcp" } :=
  ⟨rfl, rfl, rfl⟩

/-- C10: only `message` is required — validation succeeds exactly when the
body carries a message; an absent `agent_type` defaults to "openai" and an
absent `model` to "gpt-3.5-turbo"; and with the dependency available the
success response echoes `agent_type` and `model` verbatim with status
"success". -/
theorem chat_request_defaults_and_echo :
    (∀ body : ChatBody, (parseChatRequest body).isSome = body.message.isSome) ∧
    (∀ (m : String) (mo : Option String),
      parseChatRequest { message := some m, agent_type := none, model := mo } =
        some { message := m, agent_type := "openai", model := mo.getD "gpt-3.5-turbo" }) ∧
    (∀ (m : String) (a : Option String),
      parseChatRequest { message := some m, agent_type := a, model := none } =
        some { message := m, agent_type := a.getD "openai", model := "gpt-3.5-turbo" }) ∧
    (∀ request : ChatRequest,
      chat true (Except.ok ()) request =
        ChatOut.ok (response_text request) request.agent_type request.model "success") := by
  refine ⟨?_, ?_, ?_, ?_⟩
  · intro body
    obtain ⟨msg, a, mo⟩ := body
    cases msg <;> simp [parseChatRequest]
  · intro m mo
    rfl
  · intro m a
    rfl
  · intro request
    rfl
